import Mathlib

/-!
Verification of the texture-mapping and camera-locomotion core of the
skateboard customizer (`src/components/SkateboardPreview.tsx`).

The TypeScript component drives a three.js scene.  The parts of the program
the properties below are about are shallowly embedded here:

* the texture UV matrices built in `loadTextureFromUrl` (three.js `Matrix3`
  semantics: `translate` / `rotate` / `scale` premultiply the corresponding
  primitive matrix, where `rotate(θ)` premultiplies the rotation matrix of
  `-θ`; `setUvTransform` writes the composed matrix directly).  Rotation is
  only ever invoked at θ = π/2, whose cosine and sine are exact, so the
  matrices live over `ℚ`;
* the in-place BGRA→RGBA byte swap `convertBGRAtoRGBA`;
* the scene-graph search `findMeshInModel` (three.js `Object3D.traverse`
  visits a node before its children, i.e. pre-order depth-first);
* the bounding-box dimension computation `getMeshDimensions`;
* the model flip `flipModel` and the load routine `loadSkateboardModel`;
* the per-tick camera locomotion in `animate` (three.js
  `Vector3.applyQuaternion` and `normalize`, the latter dividing by
  `length() || 1` so the zero vector normalizes to itself).

Floating-point arithmetic is modelled by exact arithmetic (`ℚ` where the
code only ever produces rationals, `ℝ` where lengths of vectors occur).
-/

/-! ### Texture UV transforms (`loadTextureFromUrl`, lines 500–543) -/

/-- A three.js `Matrix3`, row-major fields named after the `set` arguments. -/
structure UvMat where
  n11 : ℚ
  n12 : ℚ
  n13 : ℚ
  n21 : ℚ
  n22 : ℚ
  n23 : ℚ
  n31 : ℚ
  n32 : ℚ
  n33 : ℚ
deriving DecidableEq, Repr

/-- `Matrix3.identity()`. -/
def uvIdentity : UvMat := ⟨1, 0, 0, 0, 1, 0, 0, 0, 1⟩

/-- Matrix product, `a * b`. -/
def matMulQ (a b : UvMat) : UvMat :=
  ⟨a.n11 * b.n11 + a.n12 * b.n21 + a.n13 * b.n31,
   a.n11 * b.n12 + a.n12 * b.n22 + a.n13 * b.n32,
   a.n11 * b.n13 + a.n12 * b.n23 + a.n13 * b.n33,
   a.n21 * b.n11 + a.n22 * b.n21 + a.n23 * b.n31,
   a.n21 * b.n12 + a.n22 * b.n22 + a.n23 * b.n32,
   a.n21 * b.n13 + a.n22 * b.n23 + a.n23 * b.n33,
   a.n31 * b.n11 + a.n32 * b.n21 + a.n33 * b.n31,
   a.n31 * b.n12 + a.n32 * b.n22 + a.n33 * b.n32,
   a.n31 * b.n13 + a.n32 * b.n23 + a.n33 * b.n33⟩

/-- `Matrix3.makeTranslation(tx, ty)`. -/
def makeTranslationQ (tx ty : ℚ) : UvMat := ⟨1, 0, tx, 0, 1, ty, 0, 0, 1⟩

/-- `Matrix3.makeScale(sx, sy)`. -/
def makeScaleQ (sx sy : ℚ) : UvMat := ⟨sx, 0, 0, 0, sy, 0, 0, 0, 1⟩

/-- `Matrix3.makeRotation(θ)` with `c = cos θ`, `s = sin θ` passed exactly. -/
def makeRotationQ (c s : ℚ) : UvMat := ⟨c, -s, 0, s, c, 0, 0, 0, 1⟩

/-- `Matrix3.translate(tx, ty)`: premultiplies the translation matrix. -/
def uvTranslate (m : UvMat) (tx ty : ℚ) : UvMat := matMulQ (makeTranslationQ tx ty) m

/-- `Matrix3.scale(sx, sy)`: premultiplies the scale matrix. -/
def uvScale (m : UvMat) (sx sy : ℚ) : UvMat := matMulQ (makeScaleQ sx sy) m

/-- `Matrix3.rotate(θ)`: premultiplies `makeRotation(-θ)`.  The cosine and
sine of θ are passed exactly as `c` and `s`, so the premultiplied matrix is
`makeRotation` of `cos(-θ) = c`, `sin(-θ) = -s`. -/
def uvRotate (m : UvMat) (c s : ℚ) : UvMat := matMulQ (makeRotationQ c (-s)) m

/-- `Matrix3.setUvTransform(tx, ty, sx, sy, θ, cx, cy)` with `c = cos θ`,
`s = sin θ` passed exactly. -/
def setUvTransformQ (tx ty sx sy c s cx cy : ℚ) : UvMat :=
  ⟨sx * c, sx * s, -sx * (c * cx + s * cy) + cx + tx,
   -sy * s, sy * c, -sy * (-s * cx + c * cy) + cy + ty,
   0, 0, 1⟩

/-- Apply a `UvMat` to a UV point `(x, y)` (affine action, last row `0 0 1`). -/
def applyUvQ (m : UvMat) (p : ℚ × ℚ) : ℚ × ℚ :=
  (m.n11 * p.1 + m.n12 * p.2 + m.n13, m.n21 * p.1 + m.n22 * p.2 + m.n23)

/-- Bottom-sticker UV matrix: starting from the identity the code calls
`translate(-0.5, -0.5)`, `rotate(π/2)` (cos = 0, sin = 1),
`scale(1.01, 4.1)`, `translate(0.5, 0.045)` in that order. -/
def bottomUvMatrix : UvMat :=
  uvTranslate
    (uvScale
      (uvRotate (uvTranslate uvIdentity (-(1 : ℚ)/2) (-(1 : ℚ)/2)) 0 1)
      (101/100) (41/10))
    (1/2) (9/200)

/-- Top-sticker scale factor along U, `scaleX = 1.01`. -/
def topScaleX : ℚ := 101/100

/-- Top-sticker scale factor along V, `scaleY = 3.735`. -/
def topScaleY : ℚ := 747/200

/-- Top-sticker offset `0.5 - scaleX / 2` passed to `setUvTransform`. -/
def topOffsetX : ℚ := 1/2 - topScaleX / 2

/-- Top-sticker offset `0.5 - scaleY / 2` passed to `setUvTransform`. -/
def topOffsetY : ℚ := 1/2 - topScaleY / 2

/-- Top-sticker UV matrix:
`setUvTransform(0.5 - scaleX/2, 0.5 - scaleY/2, 1.01, 3.735, π/2, 0.5, 0.5)`
(cos(π/2) = 0, sin(π/2) = 1). -/
def topUvMatrix : UvMat :=
  setUvTransformQ topOffsetX topOffsetY topScaleX topScaleY 0 1 (1/2) (1/2)

/-- Texture state set up by `loadTextureFromUrl` before it is handed to the
renderer: the UV matrix (by surface) and the center, pinned to (0.5, 0.5). -/
structure UvTexture where
  matrix : UvMat
  center : ℚ × ℚ
deriving DecidableEq, Repr

/-- The texture configured by `loadTextureFromUrl` for the bottom
(`isBottom = true`) or top surface. -/
def stickerTexture (isBottom : Bool) : UvTexture :=
  ⟨if isBottom then bottomUvMatrix else topUvMatrix, (1/2, 1/2)⟩

/-- Modelled from the spec: the bottom transform as a sequential matrix
composition in the exact order translate(-0.5, -0.5), then the rotate-by-π/2
texture operation (which premultiplies the rotation matrix of -π/2, i.e.
cos 0, sin -1), then scale(1.01, 4.1), then translate(0.5, 0.045); an earlier
step stands to the right of a later one in the product. -/
def specBottomUvMatrix : UvMat :=
  matMulQ (makeTranslationQ (1/2) (9/200))
    (matMulQ (makeScaleQ (101/100) (41/10))
      (matMulQ (makeRotationQ 0 (-1))
        (makeTranslationQ (-(1 : ℚ)/2) (-(1 : ℚ)/2))))

/-- The same four steps applied in the reverse sequence, to witness that the
composition order matters. -/
def altBottomUvMatrix : UvMat :=
  uvTranslate
    (uvRotate
      (uvScale (uvTranslate uvIdentity (1/2) (9/200)) (101/100) (41/10))
      0 1)
    (-(1 : ℚ)/2) (-(1 : ℚ)/2)

/-! ### BGRA→RGBA conversion (`convertBGRAtoRGBA`, lines 43–49) -/

/-- `convertBGRAtoRGBA`: walks the byte list in steps of 4 and swaps the
bytes at offsets 0 and 2 of each quad.  On a trailing fragment shorter than
4 bytes the JS destructuring reads out of bounds (yielding `undefined`,
clamped to 0 on write into the `Uint8ClampedArray`) and drops the
out-of-bounds write; those clauses are modelled accordingly but are never
reached on buffers of valid length. -/
def convertBGRAtoRGBA : List Nat → List Nat
  | b :: g :: r :: a :: rest => r :: g :: b :: a :: convertBGRAtoRGBA rest
  | [x, y, z] => [z, y, x]
  | [_, y] => [0, y]
  | [_] => [0]
  | [] => []

/-! ### Claims C1, C2, C6 -/

/-- Claim C1: the UV matrix handed to the renderer for the bottom sticker
surface equals the identity composed sequentially, in this exact order, with
translate(-0.5, -0.5), rotate(π/2), scale(1.01, 4.1), translate(0.5, 0.045);
and composing the same four steps in a different order yields a different
matrix. -/
theorem c1_bottom_uv_matrix_composition :
    (stickerTexture true).matrix = specBottomUvMatrix ∧
      altBottomUvMatrix ≠ (stickerTexture true).matrix := by
  norm_num [stickerTexture, bottomUvMatrix, specBottomUvMatrix, altBottomUvMatrix,
    uvTranslate, uvScale, uvRotate, matMulQ, makeTranslationQ, makeScaleQ,
    makeRotationQ, uvIdentity, UvMat.mk.injEq]

/-- Claim C2, counterexample: the top-surface UV transform does not fix the
pivot (0.5, 0.5); it maps it to (0.495, -0.8675). -/
theorem c2_pivot_not_fixed_counterexample :
    applyUvQ (stickerTexture false).matrix (1/2, 1/2) ≠ ((1:ℚ)/2, (1:ℚ)/2) := by
  norm_num [stickerTexture, topUvMatrix, setUvTransformQ, applyUvQ,
    topOffsetX, topOffsetY, topScaleX, topScaleY, Prod.ext_iff]

/-- Claim C2, amended: the top-surface UV transform maps the pivot
(0.5, 0.5) to (0.5 + offsetX, 0.5 + offsetY) = (0.495, -0.8675); the pivot
is a fixed point exactly of the rotate-scale part, and the nonzero offsets
translate it. -/
theorem c2_pivot_maps_to_offset :
    applyUvQ (stickerTexture false).matrix (1/2, 1/2)
      = (1/2 + topOffsetX, 1/2 + topOffsetY) ∧
      applyUvQ (setUvTransformQ 0 0 topScaleX topScaleY 0 1 (1/2) (1/2)) (1/2, 1/2)
        = ((1:ℚ)/2, (1:ℚ)/2) := by
  norm_num [stickerTexture, topUvMatrix, setUvTransformQ, applyUvQ,
    topOffsetX, topOffsetY, topScaleX, topScaleY, Prod.ext_iff]

/-- Claim C6: on a pixel buffer whose length is a multiple of 4 the
BGRA→RGBA conversion is an involution: applying it twice restores the
original buffer byte for byte. -/
theorem c6_bgra_involution (l : List Nat) (h : l.length % 4 = 0) :
    convertBGRAtoRGBA (convertBGRAtoRGBA l) = l := by
  induction l using convertBGRAtoRGBA.induct with
  | case1 b g r a rest ih =>
      have hr : rest.length % 4 = 0 := by
        simp only [List.length_cons] at h
        omega
      simp [convertBGRAtoRGBA, ih hr]
  | case2 x y z => simp at h
  | case3 x y => simp at h
  | case4 x => simp at h
  | case5 => simp [convertBGRAtoRGBA]

/-- Witness for C6 at a concrete 8-byte buffer. -/
theorem c6_bgra_involution_witness :
    ([1, 2, 3, 4, 5, 6, 7, 8] : List Nat).length % 4 = 0 ∧
      convertBGRAtoRGBA (convertBGRAtoRGBA [1, 2, 3, 4, 5, 6, 7, 8])
        = [1, 2, 3, 4, 5, 6, 7, 8] :=
  ⟨by decide, c6_bgra_involution [1, 2, 3, 4, 5, 6, 7, 8] (by decide)⟩

/-! ### Scene graph, surface locator and model load
(`findMeshInModel`, lines 52–60; `loadSkateboardModel`, lines 264–366) -/

/-- The material state the component reads and writes (a subset of the
three.js `MeshBasicMaterial` fields; `needsUpdate` and the color are not
modelled). -/
structure Material where
  transparent : Bool
  opacity : ℚ
  alphaTest : ℚ
  polygonOffset : Bool
  polygonOffsetFactor : ℤ
  polygonOffsetUnits : ℤ
  map : Option UvTexture
deriving DecidableEq, Repr

/-- The three.js `Material` constructor defaults for the fields modelled. -/
def defaultMaterial : Material := ⟨false, 1, 0, false, 0, 0, none⟩

/-- A scene-graph node: its name, whether it is a drawable `Mesh`, its
material (only read on mesh nodes) and its children. -/
inductive SNode where
  | mk (name : String) (isMesh : Bool) (material : Material) (children : List SNode)

/-- Name of a node. -/
def SNode.name : SNode → String
  | .mk n _ _ _ => n

/-- Whether the node is a drawable `Mesh` (`obj instanceof THREE.Mesh`). -/
def SNode.isMesh : SNode → Bool
  | .mk _ b _ _ => b

/-- Material of a node. -/
def SNode.material : SNode → Material
  | .mk _ _ m _ => m

mutual

/-- Visit order of three.js `Object3D.traverse`: the node itself, then each
child subtree in order (pre-order depth-first). -/
def SNode.flatten : SNode → List SNode
  | .mk n b m cs => .mk n b m cs :: flattenMany cs

/-- `flatten` mapped over a forest, concatenated. -/
def flattenMany : List SNode → List SNode
  | [] => []
  | c :: rest => c.flatten ++ flattenMany rest

end

/-- `pat` is a prefix of `s` (character lists). -/
def charListBegins : List Char → List Char → Bool
  | [], _ => true
  | _ :: _, [] => false
  | a :: as, b :: bs => a == b && charListBegins as bs

/-- `pat` occurs contiguously somewhere in `s` (character lists). -/
def charListHas (pat : List Char) : List Char → Bool
  | [] => charListBegins pat []
  | c :: rest => charListBegins pat (c :: rest) || charListHas pat rest

/-- JavaScript `s.includes(pat)`: `pat` is a substring of `s`. -/
def strIncludes (s pat : String) : Bool := charListHas pat.data s.data

/-- `findMeshInModel`: traverses the graph, overwriting the result with
every drawable node whose name contains `name`, so the last visited match
wins; `none` when no node matches. -/
def findMeshInModel (model : SNode) (name : String) : Option SNode :=
  (SNode.flatten model).foldl
    (fun targetMesh obj =>
      if obj.isMesh && strIncludes obj.name name then some obj else targetMesh)
    none

/-- First-match-wins choice on optional values: keep `a` unless it is
`none`. -/
def optOr {α : Type} : Option α → Option α → Option α
  | some a, _ => some a
  | none, b => b

/-- The sticker-material setup performed by `loadSkateboardModel` on the
top and bottom sticker meshes: transparent, opacity 0, alphaTest 0.01,
polygon offset factor and units both -1; the texture slot is untouched. -/
def stickerMaterialSetup (m : Material) : Material :=
  ⟨true, 0, 1/100, true, -1, -1, m.map⟩

/-- The model record kept in `modelRef` after a successful load, with the
three stashed material references. -/
structure LoadedModel where
  graph : SNode
  baseMaterial : Material
  topStickerMaterial : Material
  bottomStickerMaterial : Material

/-- Outcome of `loadSkateboardModel`: the held model reference, the model
attached to the scene (if any), and the user-facing error message. -/
structure LoadOutcome where
  modelRef : Option LoadedModel
  sceneModel : Option SNode
  errorMsg : Option String

/-- The user-facing message produced when a required mesh is missing: the
catch-block prefix applied to the thrown message. -/
def missingMeshMessage : String :=
  "模型加载失败: 模型中未找到base/top_sticker/bottom_sticker Mesh，请检查模型命名"

/-- `loadSkateboardModel`: the previously held model (if any) is removed
and released before the load, so it never survives; the three required
surfaces are located by substring; if any is missing the routine throws,
the catch sets the error message, and neither `modelRef` nor the scene
receives the new model.  On success the sticker materials are initialised
and the material references stashed on the model. -/
def loadSkateboardModel (_prev : Option LoadedModel) (g : SNode) : LoadOutcome :=
  match findMeshInModel g "base", findMeshInModel g "top_sticker",
      findMeshInModel g "bottom_sticker" with
  | some baseMesh, some topMesh, some bottomMesh =>
      ⟨some ⟨g, baseMesh.material, stickerMaterialSetup topMesh.material,
          stickerMaterialSetup bottomMesh.material⟩,
        some g, none⟩
  | _, _, _ => ⟨none, none, some missingMeshMessage⟩

/-- Success path of `loadTextureFromUrl` applied to a sticker material: the
texture for the given surface is installed and the opacity raised to 1. -/
def loadTextureFromUrl (material : Material) (isBottom : Bool) : Material :=
  ⟨material.transparent, 1, material.alphaTest, material.polygonOffset,
    material.polygonOffsetFactor, material.polygonOffsetUnits,
    some (stickerTexture isBottom)⟩

/-! ### Claims C5, C8, C9 -/

/-- `(x :: l).getLast?` keeps `x` only when `l` has no last element. -/
lemma getLast?_cons_optOr {α : Type} (x : α) (l : List α) :
    (x :: l).getLast? = optOr l.getLast? (some x) := by
  induction l generalizing x with
  | nil => simp [optOr]
  | cons y ys ih =>
      rw [List.getLast?_cons_cons, ih y]
      cases hy : ys.getLast? with
      | none => simp [ih y, optOr, hy]
      | some a => simp [ih y, optOr, hy]

/-- Folding "overwrite on match" over a list returns the last match, or the
initial accumulator when nothing matches. -/
lemma foldl_overwrite_eq_last {α : Type} (p : α → Bool) (l : List α) :
    ∀ acc : Option α,
      l.foldl (fun a x => if p x then some x else a) acc
        = optOr (l.filter p).getLast? acc := by
  induction l with
  | nil => intro acc; simp [optOr]
  | cons x xs ih =>
      intro acc
      rw [List.foldl_cons, ih, List.filter_cons]
      cases hp : p x with
      | false => simp [hp]
      | true =>
          simp only [hp, if_true, getLast?_cons_optOr]
          cases hxs : (xs.filter p).getLast? with
          | none => simp [optOr]
          | some a => simp [optOr]

/-- Claim C5: for every scene graph and name fragment, `findMeshInModel`
returns the last drawable node in depth-first visit order whose name
contains the fragment as a substring, and `none` when no such node
exists. -/
theorem c5_find_mesh_last_match (model : SNode) (frag : String) :
    findMeshInModel model frag
      = ((SNode.flatten model).filter
          (fun obj => obj.isMesh && strIncludes obj.name frag)).getLast? := by
  rw [findMeshInModel, foldl_overwrite_eq_last]
  cases ((SNode.flatten model).filter
      (fun obj => obj.isMesh && strIncludes obj.name frag)).getLast? <;>
    simp [optOr]

/-- Claim C8: when any of the three required surfaces is absent the load
fails: the model reference is null, nothing is attached to the scene, and
the descriptive error message is set — regardless of what was loaded
before. -/
theorem c8_load_missing_mesh_fails (prev : Option LoadedModel) (g : SNode)
    (h : findMeshInModel g "base" = none ∨ findMeshInModel g "top_sticker" = none ∨
      findMeshInModel g "bottom_sticker" = none) :
    (loadSkateboardModel prev g).modelRef = none ∧
      (loadSkateboardModel prev g).sceneModel = none ∧
      (loadSkateboardModel prev g).errorMsg = some missingMeshMessage := by
  unfold loadSkateboardModel
  rcases hb : findMeshInModel g "base" with _ | mb <;>
    rcases ht : findMeshInModel g "top_sticker" with _ | mt <;>
      rcases hbt : findMeshInModel g "bottom_sticker" with _ | mbt <;>
        simp_all

/-- A model containing only an unrelated mesh named "wheel". -/
def wheelOnlyModel : SNode := .mk "wheel" true defaultMaterial []

/-- Witness for C8: loading a model whose only mesh is named "wheel"
fails and attaches nothing. -/
theorem c8_load_missing_mesh_fails_witness :
    (findMeshInModel wheelOnlyModel "base" = none ∨
      findMeshInModel wheelOnlyModel "top_sticker" = none ∨
      findMeshInModel wheelOnlyModel "bottom_sticker" = none) ∧
      ((loadSkateboardModel none wheelOnlyModel).modelRef = none ∧
        (loadSkateboardModel none wheelOnlyModel).sceneModel = none ∧
        (loadSkateboardModel none wheelOnlyModel).errorMsg
          = some missingMeshMessage) :=
  ⟨Or.inl rfl, c8_load_missing_mesh_fails none wheelOnlyModel (Or.inl rfl)⟩

/-- Claim C9: after every successful load the sticker materials are fully
transparent (opacity 0, transparent flag set), and applying a texture to
either sticker material raises its opacity to 1. -/
theorem c9_sticker_opacity (prev : Option LoadedModel) (g : SNode)
    (m : LoadedModel) (h : (loadSkateboardModel prev g).modelRef = some m) :
    m.topStickerMaterial.transparent = true ∧ m.topStickerMaterial.opacity = 0 ∧
      m.bottomStickerMaterial.transparent = true ∧
      m.bottomStickerMaterial.opacity = 0 ∧
      (loadTextureFromUrl m.topStickerMaterial false).opacity = 1 ∧
      (loadTextureFromUrl m.bottomStickerMaterial true).opacity = 1 := by
  unfold loadSkateboardModel at h
  rcases hb : findMeshInModel g "base" with _ | mb <;>
    rcases ht : findMeshInModel g "top_sticker" with _ | mt <;>
      rcases hbt : findMeshInModel g "bottom_sticker" with _ | mbt <;>
        simp_all [stickerMaterialSetup, loadTextureFromUrl]
  rcases h with ⟨rfl, rfl, rfl, rfl⟩
  simp

/-- A minimal well-formed board model with the three required meshes. -/
def demoBoardModel : SNode :=
  .mk "root" false defaultMaterial
    [.mk "base" true defaultMaterial [],
     .mk "top_sticker" true defaultMaterial [],
     .mk "bottom_sticker" true defaultMaterial []]

/-- The model record produced by loading `demoBoardModel`. -/
def demoLoadedModel : LoadedModel :=
  ⟨demoBoardModel, defaultMaterial, stickerMaterialSetup defaultMaterial,
    stickerMaterialSetup defaultMaterial⟩

/-- Witness for C9 on the concrete demo board model. -/
theorem c9_sticker_opacity_witness :
    (loadSkateboardModel none demoBoardModel).modelRef = some demoLoadedModel ∧
      (demoLoadedModel.topStickerMaterial.transparent = true ∧
        demoLoadedModel.topStickerMaterial.opacity = 0 ∧
        demoLoadedModel.bottomStickerMaterial.transparent = true ∧
        demoLoadedModel.bottomStickerMaterial.opacity = 0 ∧
        (loadTextureFromUrl demoLoadedModel.topStickerMaterial false).opacity = 1 ∧
        (loadTextureFromUrl demoLoadedModel.bottomStickerMaterial true).opacity = 1) :=
  ⟨rfl, c9_sticker_opacity none demoBoardModel demoLoadedModel rfl⟩

/-! ### Mesh dimensions (`getMeshDimensions`, lines 63–81) -/

/-- A 3-component vector with exact coordinates. -/
@[ext] structure Vec3Q where
  x : ℚ
  y : ℚ
  z : ℚ
deriving DecidableEq, Repr

/-- Componentwise vector addition. -/
def vaddQ (a b : Vec3Q) : Vec3Q := ⟨a.x + b.x, a.y + b.y, a.z + b.z⟩

/-- `parseFloat(v.toFixed(2))`: round to two decimal places (ties cannot
change under the translations considered, so the precise tie-breaking rule
is immaterial; round-half-up is used). -/
def round2 (q : ℚ) : ℚ := (round (q * 100) : ℚ) / 100

/-- Result of `getMeshDimensions`: rounded box extents and exact center. -/
@[ext] structure MeshDims where
  width : ℚ
  height : ℚ
  depth : ℚ
  center : Vec3Q
deriving DecidableEq, Repr

/-- Least coordinate of the vertices along the axis selected by `s`
(`Box3.expandByPoint` folding `min`). -/
def minAlong (s : Vec3Q → ℚ) (v : Vec3Q) (rest : List Vec3Q) : ℚ :=
  rest.foldl (fun m w => min m (s w)) (s v)

/-- Greatest coordinate of the vertices along the axis selected by `s`. -/
def maxAlong (s : Vec3Q → ℚ) (v : Vec3Q) (rest : List Vec3Q) : ℚ :=
  rest.foldl (fun m w => max m (s w)) (s v)

/-- `getMeshDimensions` on the mesh's vertex positions: axis-aligned
bounding box, extents rounded to two decimals, plus the box center
(`(min + max) * 0.5`).  A mesh with no vertices yields the empty three.js
box, whose size and center are reported as zero.  The computation reads the
vertex list and builds a fresh record, mutating nothing. -/
def getMeshDimensions : List Vec3Q → MeshDims
  | [] => ⟨0, 0, 0, ⟨0, 0, 0⟩⟩
  | v :: rest =>
      ⟨round2 (maxAlong Vec3Q.x v rest - minAlong Vec3Q.x v rest),
       round2 (maxAlong Vec3Q.y v rest - minAlong Vec3Q.y v rest),
       round2 (maxAlong Vec3Q.z v rest - minAlong Vec3Q.z v rest),
       ⟨(minAlong Vec3Q.x v rest + maxAlong Vec3Q.x v rest) / 2,
        (minAlong Vec3Q.y v rest + maxAlong Vec3Q.y v rest) / 2,
        (minAlong Vec3Q.z v rest + maxAlong Vec3Q.z v rest) / 2⟩⟩

/-! ### Claim C7 -/

/-- Shifting every fold input and the accumulator by `c` shifts a `min`
fold by `c`. -/
lemma foldl_min_shift (s : Vec3Q → ℚ) (c : ℚ) (l : List Vec3Q) :
    ∀ a : ℚ, l.foldl (fun m w => min m (s w + c)) (a + c)
      = l.foldl (fun m w => min m (s w)) a + c := by
  induction l with
  | nil => intro a; simp
  | cons w ws ih =>
      intro a
      rw [List.foldl_cons, List.foldl_cons, min_add_add_right, ih]

/-- Shifting every fold input and the accumulator by `c` shifts a `max`
fold by `c`. -/
lemma foldl_max_shift (s : Vec3Q → ℚ) (c : ℚ) (l : List Vec3Q) :
    ∀ a : ℚ, l.foldl (fun m w => max m (s w + c)) (a + c)
      = l.foldl (fun m w => max m (s w)) a + c := by
  induction l with
  | nil => intro a; simp
  | cons w ws ih =>
      intro a
      rw [List.foldl_cons, List.foldl_cons, max_add_add_right, ih]

/-- `minAlong` commutes with translating all vertices, for any additive
coordinate selector. -/
lemma minAlong_shift (s : Vec3Q → ℚ) (hs : ∀ p q, s (vaddQ p q) = s p + s q)
    (t v : Vec3Q) (rest : List Vec3Q) :
    minAlong s (vaddQ v t) (rest.map (fun p => vaddQ p t))
      = minAlong s v rest + s t := by
  unfold minAlong
  rw [List.foldl_map, hs]
  simp only [hs]
  exact foldl_min_shift s (s t) rest (s v)

/-- `maxAlong` commutes with translating all vertices, for any additive
coordinate selector. -/
lemma maxAlong_shift (s : Vec3Q → ℚ) (hs : ∀ p q, s (vaddQ p q) = s p + s q)
    (t v : Vec3Q) (rest : List Vec3Q) :
    maxAlong s (vaddQ v t) (rest.map (fun p => vaddQ p t))
      = maxAlong s v rest + s t := by
  unfold maxAlong
  rw [List.foldl_map, hs]
  simp only [hs]
  exact foldl_max_shift s (s t) rest (s v)

/-- Claim C7: translating every vertex of a (nonempty) mesh by a constant
vector leaves the rounded width, height and depth unchanged and moves the
returned center by exactly that vector; the input list is read, not
mutated. -/
theorem c7_dimensions_translation_invariant (vs : List Vec3Q) (t : Vec3Q)
    (h : vs ≠ []) :
    getMeshDimensions (vs.map (fun p => vaddQ p t))
      = ⟨(getMeshDimensions vs).width, (getMeshDimensions vs).height,
         (getMeshDimensions vs).depth,
         vaddQ (getMeshDimensions vs).center t⟩ := by
  match vs with
  | [] => exact absurd rfl h
  | v :: rest =>
      have hx : ∀ p q : Vec3Q, (vaddQ p q).x = p.x + q.x := fun _ _ => rfl
      have hy : ∀ p q : Vec3Q, (vaddQ p q).y = p.y + q.y := fun _ _ => rfl
      have hz : ∀ p q : Vec3Q, (vaddQ p q).z = p.z + q.z := fun _ _ => rfl
      simp only [List.map_cons, getMeshDimensions,
        minAlong_shift Vec3Q.x hx t v rest, maxAlong_shift Vec3Q.x hx t v rest,
        minAlong_shift Vec3Q.y hy t v rest, maxAlong_shift Vec3Q.y hy t v rest,
        minAlong_shift Vec3Q.z hz t v rest, maxAlong_shift Vec3Q.z hz t v rest]
      ext <;> simp [vaddQ] <;> ring_nf

/-- Witness for C7 on a concrete two-vertex mesh and translation. -/
theorem c7_dimensions_translation_invariant_witness :
    ([⟨0, 0, 0⟩, ⟨1, 2, 3⟩] : List Vec3Q) ≠ [] ∧
      getMeshDimensions
          (([⟨0, 0, 0⟩, ⟨1, 2, 3⟩] : List Vec3Q).map
            (fun p => vaddQ p ⟨5, -1, 1/2⟩))
        = ⟨(getMeshDimensions [⟨0, 0, 0⟩, ⟨1, 2, 3⟩]).width,
           (getMeshDimensions [⟨0, 0, 0⟩, ⟨1, 2, 3⟩]).height,
           (getMeshDimensions [⟨0, 0, 0⟩, ⟨1, 2, 3⟩]).depth,
           vaddQ (getMeshDimensions [⟨0, 0, 0⟩, ⟨1, 2, 3⟩]).center ⟨5, -1, 1/2⟩⟩ :=
  ⟨by simp,
    c7_dimensions_translation_invariant [⟨0, 0, 0⟩, ⟨1, 2, 3⟩] ⟨5, -1, 1/2⟩
      (by simp)⟩

/-! ### Vectors, quaternions and matrices over ℝ
(camera locomotion in `animate`, lines 607–653; `flipModel`, lines 221–261) -/

noncomputable section

/-- A three.js `Vector3` with exact real coordinates. -/
@[ext] structure Vec3R where
  x : ℝ
  y : ℝ
  z : ℝ

/-- `Vector3.add`. -/
def vaddR (a b : Vec3R) : Vec3R := ⟨a.x + b.x, a.y + b.y, a.z + b.z⟩

/-- `Vector3.sub`. -/
def vsubR (a b : Vec3R) : Vec3R := ⟨a.x - b.x, a.y - b.y, a.z - b.z⟩

/-- `Vector3.multiplyScalar`. -/
def vscaleR (c : ℝ) (v : Vec3R) : Vec3R := ⟨c * v.x, c * v.y, c * v.z⟩

/-- `Vector3.addScaledVector(v, s)`: `this + v * s`. -/
def addScaledVector (p v : Vec3R) (s : ℝ) : Vec3R := vaddR p (vscaleR s v)

/-- Squared Euclidean length. -/
def vnormSq (v : Vec3R) : ℝ := v.x * v.x + v.y * v.y + v.z * v.z

/-- `Vector3.length()`. -/
def vlength (v : Vec3R) : ℝ := Real.sqrt (vnormSq v)

/-- `Vector3.normalize()`: `divideScalar(length() || 1)` — the zero vector
(whose length `0` is falsy) is divided by 1 and stays the zero vector,
never producing NaN components. -/
def vnormalize (v : Vec3R) : Vec3R :=
  vscaleR (1 / (if vlength v = 0 then 1 else vlength v)) v

/-- A three.js `Quaternion` (components, in `x y z w` order). -/
structure QuatR where
  x : ℝ
  y : ℝ
  z : ℝ
  w : ℝ

/-- `Vector3.applyQuaternion(q)`: `t = 2 (q.xyz × v)`,
result `v + q.w t + q.xyz × t`. -/
def applyQuaternion (q : QuatR) (v : Vec3R) : Vec3R :=
  let tx := 2 * (q.y * v.z - q.z * v.y)
  let ty := 2 * (q.z * v.x - q.x * v.z)
  let tz := 2 * (q.x * v.y - q.y * v.x)
  ⟨v.x + q.w * tx + q.y * tz - q.z * ty,
   v.y + q.w * ty + q.z * tx - q.x * tz,
   v.z + q.w * tz + q.x * ty - q.y * tx⟩

/-! #### Camera locomotion (`animate`) -/

/-- The currently held movement keys (membership of 'w', 'a', 's', 'd' in
`keysPressedRef`). -/
structure Keys where
  w : Bool
  a : Bool
  s : Bool
  d : Bool

/-- `cameraForward`: local forward `(0, 0, -1)` rotated by the camera
quaternion, normalized. -/
def cameraForwardVec (q : QuatR) : Vec3R :=
  vnormalize (applyQuaternion q ⟨0, 0, -1⟩)

/-- `cameraLeft`: local left `(-1, 0, 0)` rotated by the camera quaternion,
normalized. -/
def cameraLeftVec (q : QuatR) : Vec3R :=
  vnormalize (applyQuaternion q ⟨-1, 0, 0⟩)

/-- Zeroing of the vertical component (`cameraForward.y = 0`). -/
def zeroY (v : Vec3R) : Vec3R := ⟨v.x, 0, v.z⟩

/-- The forward direction actually used for movement: vertical component
zeroed, then renormalized. -/
def horizForward (q : QuatR) : Vec3R := vnormalize (zeroY (cameraForwardVec q))

/-- The left direction actually used for movement: vertical component
zeroed, then renormalized. -/
def horizLeft (q : QuatR) : Vec3R := vnormalize (zeroY (cameraLeftVec q))

/-- One render tick of the WASD movement in `animate`: for each held key,
`addScaledVector` with `±speed` along the horizontal forward/left
directions, in the source's w, s, a, d order. -/
def moveStep (q : QuatR) (keys : Keys) (pos : Vec3R) (speed : ℝ) : Vec3R :=
  let f := horizForward q
  let l := horizLeft q
  let p1 := if keys.w then addScaledVector pos f speed else pos
  let p2 := if keys.s then addScaledVector p1 f (-speed) else p1
  let p3 := if keys.a then addScaledVector p2 l speed else p2
  if keys.d then addScaledVector p3 l (-speed) else p3

/-! #### Model flip (`flipModel`) -/

/-- A 3×3 real matrix, row-major fields. -/
@[ext] structure Mat3R where
  m11 : ℝ
  m12 : ℝ
  m13 : ℝ
  m21 : ℝ
  m22 : ℝ
  m23 : ℝ
  m31 : ℝ
  m32 : ℝ
  m33 : ℝ

/-- The identity matrix. -/
def idMat3 : Mat3R := ⟨1, 0, 0, 0, 1, 0, 0, 0, 1⟩

/-- Matrix product. -/
def matMulR (a b : Mat3R) : Mat3R :=
  ⟨a.m11 * b.m11 + a.m12 * b.m21 + a.m13 * b.m31,
   a.m11 * b.m12 + a.m12 * b.m22 + a.m13 * b.m32,
   a.m11 * b.m13 + a.m12 * b.m23 + a.m13 * b.m33,
   a.m21 * b.m11 + a.m22 * b.m21 + a.m23 * b.m31,
   a.m21 * b.m12 + a.m22 * b.m22 + a.m23 * b.m32,
   a.m21 * b.m13 + a.m22 * b.m23 + a.m23 * b.m33,
   a.m31 * b.m11 + a.m32 * b.m21 + a.m33 * b.m31,
   a.m31 * b.m12 + a.m32 * b.m22 + a.m33 * b.m32,
   a.m31 * b.m13 + a.m32 * b.m23 + a.m33 * b.m33⟩

/-- Matrix–vector product. -/
def matVecR (a : Mat3R) (v : Vec3R) : Vec3R :=
  ⟨a.m11 * v.x + a.m12 * v.y + a.m13 * v.z,
   a.m21 * v.x + a.m22 * v.y + a.m23 * v.z,
   a.m31 * v.x + a.m32 * v.y + a.m33 * v.z⟩

/-- The rotation part of `Matrix4.makeRotationAxis(u, π)`: with
`cos π = -1`, `sin π = 0`, `t = 1 - cos π = 2` the general axis-angle
matrix specializes to `2 u uᵀ - I` exactly. -/
def makeRotationAxisPi (u : Vec3R) : Mat3R :=
  ⟨2 * u.x * u.x - 1, 2 * u.x * u.y, 2 * u.x * u.z,
   2 * u.x * u.y, 2 * u.y * u.y - 1, 2 * u.y * u.z,
   2 * u.x * u.z, 2 * u.y * u.z, 2 * u.z * u.z - 1⟩

/-- The axis argument of `flipModel`. -/
inductive FlipAxis where
  | x
  | y
  | z

/-- The local axis vector selected by the `switch` in `flipModel`. -/
def axisVector : FlipAxis → Vec3R
  | .x => ⟨1, 0, 0⟩
  | .y => ⟨0, 1, 0⟩
  | .z => ⟨0, 0, 1⟩

/-- The loaded model's rigid state: world position and orientation.  The
orientation is modelled by its rotation matrix; applying the model's
quaternion to a vector is `matVecR orientation`, and
`applyMatrix4(R)` for a pure rotation `R` at zero position premultiplies
the transform and decomposes back, i.e. the orientation matrix becomes
`R * orientation` and the (zero) position `R * 0 = 0`. -/
structure BoardModel where
  position : Vec3R
  orientation : Mat3R

/-- `flipModel`: the chosen local axis is carried to world space through
the model's current orientation and normalized; the model is moved to the
origin, `applyMatrix4` with the 180° rotation about that world axis is
applied, and the model is moved back to its saved position. -/
def flipModel (m : BoardModel) (axis : FlipAxis) : BoardModel :=
  let localAxis := axisVector axis
  let worldAxis := vnormalize (matVecR m.orientation localAxis)
  let rotationMatrix := makeRotationAxisPi worldAxis
  let savedPos := m.position
  let moved : BoardModel := ⟨⟨0, 0, 0⟩, m.orientation⟩
  let rotated : BoardModel :=
    ⟨matVecR rotationMatrix moved.position, matMulR rotationMatrix moved.orientation⟩
  ⟨savedPos, rotated.orientation⟩

end

/-! ### Vector and matrix lemmas -/

/-- The squared length is nonnegative. -/
lemma vnormSq_nonneg (v : Vec3R) : 0 ≤ vnormSq v := by
  unfold vnormSq
  nlinarith [mul_self_nonneg v.x, mul_self_nonneg v.y, mul_self_nonneg v.z]

/-- The squared length vanishes only on the zero vector. -/
lemma vnormSq_eq_zero_iff (v : Vec3R) : vnormSq v = 0 ↔ v = ⟨0, 0, 0⟩ := by
  constructor
  · intro h
    unfold vnormSq at h
    have hx : v.x * v.x = 0 := by
      nlinarith [mul_self_nonneg v.x, mul_self_nonneg v.y, mul_self_nonneg v.z]
    have hy : v.y * v.y = 0 := by
      nlinarith [mul_self_nonneg v.x, mul_self_nonneg v.y, mul_self_nonneg v.z]
    have hz : v.z * v.z = 0 := by
      nlinarith [mul_self_nonneg v.x, mul_self_nonneg v.y, mul_self_nonneg v.z]
    ext
    exacts [mul_self_eq_zero.mp hx, mul_self_eq_zero.mp hy, mul_self_eq_zero.mp hz]
  · rintro rfl
    simp [vnormSq]

/-- The length vanishes only on the zero vector. -/
lemma vlength_eq_zero_iff (v : Vec3R) : vlength v = 0 ↔ v = ⟨0, 0, 0⟩ := by
  rw [vlength, Real.sqrt_eq_zero (vnormSq_nonneg v), vnormSq_eq_zero_iff]

/-- The zero vector normalizes to itself (the `length() || 1` guard). -/
lemma vnormalize_zero : vnormalize (⟨0, 0, 0⟩ : Vec3R) = ⟨0, 0, 0⟩ := by
  simp [vnormalize, vlength, vnormSq, vscaleR, Real.sqrt_zero]

/-- Scaling multiplies the squared length by the square of the factor. -/
lemma vnormSq_vscaleR (c : ℝ) (v : Vec3R) :
    vnormSq (vscaleR c v) = c * c * vnormSq v := by
  simp only [vnormSq, vscaleR]
  ring

/-- A nonzero vector normalizes to a unit vector. -/
lemma vnormSq_vnormalize (v : Vec3R) (hv : v ≠ ⟨0, 0, 0⟩) :
    vnormSq (vnormalize v) = 1 := by
  have hL : vlength v ≠ 0 := fun h => hv ((vlength_eq_zero_iff v).mp h)
  have hS : vnormSq v ≠ 0 := fun h => hv ((vnormSq_eq_zero_iff v).mp h)
  have hsq : vlength v * vlength v = vnormSq v :=
    Real.mul_self_sqrt (vnormSq_nonneg v)
  rw [vnormalize, if_neg hL, vnormSq_vscaleR]
  field_simp
  linarith [hsq]

/-- Scaling back a normalized nonzero vector by its length recovers it. -/
lemma vscaleR_vlength_vnormalize (v : Vec3R) (hL : vlength v ≠ 0) :
    vscaleR (vlength v) (vnormalize v) = v := by
  rw [vnormalize, if_neg hL]
  ext <;> simp [vscaleR] <;> field_simp

/-- Matrix–vector product distributes over scaling. -/
lemma matVecR_vscaleR (a : Mat3R) (c : ℝ) (v : Vec3R) :
    matVecR a (vscaleR c v) = vscaleR c (matVecR a v) := by
  ext <;> simp [matVecR, vscaleR] <;> ring

/-- A product matrix acts as the composition of the actions. -/
lemma matVecR_matMulR (a b : Mat3R) (v : Vec3R) :
    matVecR (matMulR a b) v = matVecR a (matVecR b v) := by
  ext <;> simp [matVecR, matMulR] <;> ring

/-- Matrix multiplication is associative. -/
lemma matMulR_assoc (a b c : Mat3R) :
    matMulR (matMulR a b) c = matMulR a (matMulR b c) := by
  ext <;> simp [matMulR] <;> ring

/-- The identity matrix is a left unit. -/
lemma matMulR_id_left (m : Mat3R) : matMulR idMat3 m = m := by
  ext <;> simp [matMulR, idMat3]

/-- A unit axis is fixed by the 180° rotation about it. -/
lemma matVecR_rotPi_fixed (u : Vec3R) (h : vnormSq u = 1) :
    matVecR (makeRotationAxisPi u) u = u := by
  have h' : u.x * u.x + u.y * u.y + u.z * u.z = 1 := h
  ext
  · show (2 * u.x * u.x - 1) * u.x + 2 * u.x * u.y * u.y + 2 * u.x * u.z * u.z = u.x
    linear_combination (2 * u.x) * h'
  · show 2 * u.x * u.y * u.x + (2 * u.y * u.y - 1) * u.y + 2 * u.y * u.z * u.z = u.y
    linear_combination (2 * u.y) * h'
  · show 2 * u.x * u.z * u.x + 2 * u.y * u.z * u.y + (2 * u.z * u.z - 1) * u.z = u.z
    linear_combination (2 * u.z) * h'

/-- The 180° rotation about a unit axis is an involution. -/
lemma rotPi_involutive (u : Vec3R) (h : vnormSq u = 1) :
    matMulR (makeRotationAxisPi u) (makeRotationAxisPi u) = idMat3 := by
  have h' : u.x * u.x + u.y * u.y + u.z * u.z = 1 := h
  ext <;> simp only [matMulR, makeRotationAxisPi, idMat3]
  · linear_combination (4 * u.x * u.x) * h'
  · linear_combination (4 * u.x * u.y) * h'
  · linear_combination (4 * u.x * u.z) * h'
  · linear_combination (4 * u.x * u.y) * h'
  · linear_combination (4 * u.y * u.y) * h'
  · linear_combination (4 * u.y * u.z) * h'
  · linear_combination (4 * u.x * u.z) * h'
  · linear_combination (4 * u.y * u.z) * h'
  · linear_combination (4 * u.z * u.z) * h'

/-- The 180° rotation about the normalization of any vector squares to the
identity (for the zero vector the axis normalizes to zero and the matrix
degenerates to `-I`, which also squares to the identity). -/
lemma rotPi_vnormalize_sq (w : Vec3R) :
    matMulR (makeRotationAxisPi (vnormalize w)) (makeRotationAxisPi (vnormalize w))
      = idMat3 := by
  by_cases hw : w = (⟨0, 0, 0⟩ : Vec3R)
  · subst hw
    rw [vnormalize_zero]
    ext <;> simp [matMulR, makeRotationAxisPi, idMat3]
  · exact rotPi_involutive _ (vnormSq_vnormalize w hw)

/-- Any vector is fixed by the 180° rotation about its own normalization. -/
lemma matVecR_rotPi_normalize_self (w : Vec3R) :
    matVecR (makeRotationAxisPi (vnormalize w)) w = w := by
  by_cases hw : w = (⟨0, 0, 0⟩ : Vec3R)
  · subst hw
    ext <;> simp [matVecR]
  · have hL : vlength w ≠ 0 := fun h => hw ((vlength_eq_zero_iff w).mp h)
    have h1 : vnormSq (vnormalize w) = 1 := vnormSq_vnormalize w hw
    calc matVecR (makeRotationAxisPi (vnormalize w)) w
        = matVecR (makeRotationAxisPi (vnormalize w))
            (vscaleR (vlength w) (vnormalize w)) := by
          rw [vscaleR_vlength_vnormalize w hL]
      _ = vscaleR (vlength w) (matVecR (makeRotationAxisPi (vnormalize w))
            (vnormalize w)) := matVecR_vscaleR _ _ _
      _ = vscaleR (vlength w) (vnormalize w) := by
          rw [matVecR_rotPi_fixed _ h1]
      _ = w := vscaleR_vlength_vnormalize w hL

/-! ### Claims C3, C4, C10 -/

/-- Claim C3: in a tick with the forward and left keys both held, the
camera's displacement is exactly the vector sum of `speed` times the
horizontal forward direction and `speed` times the horizontal left
direction — no renormalization of the diagonal — so its magnitude equals
that of the vector sum. -/
theorem c3_diagonal_movement_additive (q : QuatR) (pos : Vec3R) (speed : ℝ) :
    moveStep q ⟨true, true, false, false⟩ pos speed
      = vaddR pos (vaddR (vscaleR speed (horizForward q))
          (vscaleR speed (horizLeft q))) ∧
      vlength (vsubR (moveStep q ⟨true, true, false, false⟩ pos speed) pos)
        = vlength (vaddR (vscaleR speed (horizForward q))
            (vscaleR speed (horizLeft q))) := by
  have h1 : moveStep q ⟨true, true, false, false⟩ pos speed
      = vaddR pos (vaddR (vscaleR speed (horizForward q))
          (vscaleR speed (horizLeft q))) := by
    simp only [moveStep, addScaledVector]
    ext <;> simp [vaddR, vscaleR] <;> ring
  refine ⟨h1, ?_⟩
  rw [h1]
  congr 1
  ext <;> simp [vaddR, vsubR, vscaleR]

/-- Claim C4: flipping about the same axis twice restores the model's
orientation exactly, and the world position is unchanged by each flip. -/
theorem c4_flip_twice_restores (m : BoardModel) (ax : FlipAxis) :
    (flipModel m ax).position = m.position ∧
      (flipModel (flipModel m ax) ax).position = m.position ∧
      (flipModel (flipModel m ax) ax).orientation = m.orientation := by
  refine ⟨rfl, rfl, ?_⟩
  show matMulR
      (makeRotationAxisPi (vnormalize (matVecR
        (matMulR (makeRotationAxisPi (vnormalize (matVecR m.orientation
          (axisVector ax)))) m.orientation) (axisVector ax))))
      (matMulR (makeRotationAxisPi (vnormalize (matVecR m.orientation
        (axisVector ax)))) m.orientation)
    = m.orientation
  rw [matVecR_matMulR, matVecR_rotPi_normalize_self, ← matMulR_assoc,
    rotPi_vnormalize_sq, matMulR_id_left]

/-- Claim C10: when the camera's view direction is exactly vertical (the
rotated forward vector has zero horizontal components), the projected
forward direction is the zero vector — the `length() || 1` guard
renormalizes it to zero, not NaN — so the forward and back keys contribute
no displacement that tick: the step coincides with the step in which they
are not held. -/
theorem c10_vertical_view_forward_keys_inert (q : QuatR) (keys : Keys)
    (pos : Vec3R) (speed : ℝ)
    (hx : (applyQuaternion q ⟨0, 0, -1⟩).x = 0)
    (hz : (applyQuaternion q ⟨0, 0, -1⟩).z = 0) :
    horizForward q = ⟨0, 0, 0⟩ ∧
      moveStep q keys pos speed
        = moveStep q ⟨false, keys.a, false, keys.d⟩ pos speed := by
  have hzero : zeroY (cameraForwardVec q) = (⟨0, 0, 0⟩ : Vec3R) := by
    unfold cameraForwardVec vnormalize zeroY
    ext <;> simp [vscaleR, hx, hz]
  have hf : horizForward q = (⟨0, 0, 0⟩ : Vec3R) := by
    rw [horizForward, hzero]
    exact vnormalize_zero
  have hadd : ∀ (p : Vec3R) (s : ℝ),
      addScaledVector p (⟨0, 0, 0⟩ : Vec3R) s = p := by
    intro p s
    ext <;> simp [addScaledVector, vaddR, vscaleR]
  refine ⟨hf, ?_⟩
  simp only [moveStep, hf]
  cases hw : keys.w <;> cases hs : keys.s <;> simp [hadd]

/-- Witness for C10 at a concrete straight-up camera orientation. -/
theorem c10_vertical_view_forward_keys_inert_witness :
    ((applyQuaternion ⟨1/2, 1/2, -1, 1⟩ ⟨0, 0, -1⟩).x = 0 ∧
      (applyQuaternion ⟨1/2, 1/2, -1, 1⟩ ⟨0, 0, -1⟩).z = 0) ∧
      (horizForward ⟨1/2, 1/2, -1, 1⟩ = ⟨0, 0, 0⟩ ∧
        moveStep ⟨1/2, 1/2, -1, 1⟩ ⟨true, false, false, false⟩ ⟨0, 0, 0⟩ (1/20)
          = moveStep ⟨1/2, 1/2, -1, 1⟩ ⟨false, false, false, false⟩
              ⟨0, 0, 0⟩ (1/20)) :=
  ⟨⟨by norm_num [applyQuaternion], by norm_num [applyQuaternion]⟩,
    c10_vertical_view_forward_keys_inert ⟨1/2, 1/2, -1, 1⟩
      ⟨true, false, false, false⟩ ⟨0, 0, 0⟩ (1/20)
      (by norm_num [applyQuaternion]) (by norm_num [applyQuaternion])⟩
